import Mathlib

/-!
Verification of the ESG credit-risk tool (EBA variant).

The pandas DataFrame is embedded shallowly as an association list of named
columns, each column a list of cells.  Numeric cells carry exact rationals:
every arithmetic operation the claims exercise (multiplication by the scenario
multipliers, affine rescaling, clipping, the weighted sum, thresholding) is
exact in ℚ.  The one place where IEEE special values matter — `1/InterestCoverage`
when a coverage value is 0 — is modelled separately with an extended-value type
`EFloat` mirroring the float semantics numpy applies on that line.

In-place mutation of dataframes (pandas column assignment) is modelled with a
small heap of dataframe objects: `apply_scenario` copies its input
(`df = df.copy()` in src/scenario.py) so its heap version allocates a fresh
object, while `calculate_risk` (src/model.py) has no copy and writes the
caller's object.
-/

/-- One cell of a pandas column: a (float) number, a string, a boolean, or a
missing value (NaN/None).  Numbers are modelled as exact rationals. -/
inductive Cell where
  | num (q : ℚ)
  | str (s : String)
  | bool (b : Bool)
  | null
deriving DecidableEq

/-- A DataFrame: named columns in order, each a list of cells (one per row). -/
abbrev DataFrame := List (String × List Cell)

/-- `name in df.columns`. -/
def hasCol : DataFrame → String → Bool
  | [], _ => false
  | (m, _) :: rest, n => m == n || hasCol rest n

/-- `df[name]` (column read; theorems only use it under a presence hypothesis). -/
def getCol : DataFrame → String → List Cell
  | [], _ => []
  | (m, w) :: rest, n => if m = n then w else getCol rest n

/-- `df[name] = vals`: overwrite the column in place, or append a new column
at the end, as pandas does. -/
def setCol : DataFrame → String → List Cell → DataFrame
  | [], n, v => [(n, v)]
  | (m, w) :: rest, n, v =>
      if m = n then (n, v) :: rest else (m, w) :: setCol rest n v

/-- `len(df)`: number of rows (length of the first column). -/
def nrows : DataFrame → Nat
  | [] => 0
  | (_, w) :: _ => w.length

/-- The numeric values of a column (pandas reductions skip non-numeric/NaN). -/
def cellNums (l : List Cell) : List ℚ :=
  l.filterMap (fun c => match c with | Cell.num q => some q | _ => none)

/-- `series.max()` over the numeric values of a column.  (On an empty/all-null
column pandas returns NaN; the default 0 here is never exercised: every
theorem touching a max carries a hypothesis making the column nonempty.) -/
def colMaxQ (l : List Cell) : ℚ :=
  match cellNums l with
  | [] => 0
  | q :: qs => qs.foldl max q

/-- `series * m` on one cell. -/
def Cell.scale (m : ℚ) : Cell → Cell
  | Cell.num q => Cell.num (q * m)
  | c => c

/-- `series + a` on one cell. -/
def Cell.shift (a : ℚ) : Cell → Cell
  | Cell.num q => Cell.num (q + a)
  | c => c

/-- `a - series` on one cell. -/
def Cell.rsub (a : ℚ) : Cell → Cell
  | Cell.num q => Cell.num (a - q)
  | c => c

/-- `series / m` on one cell. -/
def Cell.divBy (m : ℚ) : Cell → Cell
  | Cell.num q => Cell.num (q / m)
  | c => c

/-- `1 / series` on one cell (exact-rational path; the IEEE behaviour at 0 is
modelled by `EFloat` below). -/
def Cell.inv : Cell → Cell
  | Cell.num q => Cell.num (1 / q)
  | c => c

/-- `series.clip(lo, hi)` on one cell. -/
def Cell.clip (lo hi : ℚ) : Cell → Cell
  | Cell.num q => Cell.num (min (max q lo) hi)
  | c => c

/-- `series > t` on one cell (comparisons with NaN are False in pandas). -/
def Cell.gtFlag (t : ℚ) : Cell → Cell
  | Cell.num q => Cell.bool (decide (t < q))
  | _ => Cell.bool false

/-- Bool test: the cell is a number. -/
def Cell.isNum : Cell → Bool
  | Cell.num _ => true
  | _ => false

/-- Bool test: the cell is a number `≥ a`. -/
def Cell.numGe (a : ℚ) : Cell → Bool
  | Cell.num q => decide (a ≤ q)
  | _ => false

/-- Bool test: the cell is a number `> a`. -/
def Cell.numGt (a : ℚ) : Cell → Bool
  | Cell.num q => decide (a < q)
  | _ => false

/-- Bool test: the cell is a number in `[a, b]`. -/
def Cell.numIn (a b : ℚ) : Cell → Bool
  | Cell.num q => decide (a ≤ q) && decide (q ≤ b)
  | _ => false

/-! ## Configuration (src/eba_config.py) -/

/-- `RISK_WEIGHTS`: weights for the Risk Score (sum to 1.0).  The decimal
constants of the config (0.35, 0.25, 0.20, 0.10, 0.05, 0.05) are written as
exact fractions. -/
def RISK_WEIGHTS : List (String × ℚ) :=
  [("Debt/Equity", 35/100),
   ("InterestCoverage", 25/100),
   ("CarbonImpact", 20/100),
   ("EmissionsTrend", 10/100),
   ("SocialScore", 5/100),
   ("GovernanceScore", 5/100)]

/-- `self.weights[k]` lookup. -/
def weight (k : String) : ℚ :=
  (Option.map Prod.snd (RISK_WEIGHTS.find? (fun w => w.1 == k))).getD 0

/-- `RISK_LEVELS`: thresholds for risk flags. -/
def RISK_LEVELS : List (String × ℚ) :=
  [("high_risk", 4/10), ("high_emitter", 500)]

/-- `RISK_LEVELS[k]` lookup. -/
def riskLevelOf (k : String) : ℚ :=
  (Option.map Prod.snd (RISK_LEVELS.find? (fun w => w.1 == k))).getD 0

/-- `SCENARIOS`: name ↦ (carbon_multiplier, coverage_multiplier). -/
def SCENARIOS : List (String × ℚ × ℚ) :=
  [("Normal", (1, 1)),
   ("Transition Stress", (3/2, 1)),
   ("Physical Stress", (1, 9/10))]

/-- `MUST_HAVE_COLUMNS` from the config. -/
def MUST_HAVE_COLUMNS : List String :=
  ["Ticker", "Debt/Equity", "InterestCoverage", "CarbonImpact",
   "EmissionsTrend", "SocialScore", "GovernanceScore", "TotalAssets"]

/-- Errors raised by the core (`ValueError`s in the source; the payload is
what the message interpolates). -/
inductive EBAError where
  | unknownScenario (valid : List String)
  | missingColumns (missing : List String)
  | missingTotalAssets
deriving DecidableEq

/-! ## EBAStressEngine.apply_scenario (src/scenario.py) -/

/-- The `needed` column list in `apply_scenario`. -/
def SCENARIO_NEEDED : List String :=
  ["CarbonImpact", "InterestCoverage", "EmissionsTrend", "SocialScore", "GovernanceScore"]

/-- The scenario-specific fixed shifts of `apply_scenario`. -/
def stressShifts (name : String) (df : DataFrame) : DataFrame :=
  if name = "Transition Stress" then
    let a := setCol df "EmissionsTrend" ((getCol df "EmissionsTrend").map (Cell.shift 10))
    setCol a "GovernanceScore" ((getCol a "GovernanceScore").map (Cell.shift (-5)))
  else if name = "Physical Stress" then
    let a := setCol df "SocialScore" ((getCol df "SocialScore").map (Cell.shift (-10)))
    setCol a "EmissionsTrend" ((getCol a "EmissionsTrend").map (Cell.shift (-5)))
  else df

/-- The body of `apply_scenario` after validation: multipliers, shifts,
clipping, HighEmitter flag, scenario stamp. -/
def scenarioBody (name : String) (cm vm : ℚ) (df : DataFrame) : DataFrame :=
  let d1 := setCol df "CarbonImpact" ((getCol df "CarbonImpact").map (Cell.scale cm))
  let d2 := setCol d1 "InterestCoverage" ((getCol d1 "InterestCoverage").map (Cell.scale vm))
  let d3 := stressShifts name d2
  let d4 := setCol d3 "SocialScore" ((getCol d3 "SocialScore").map (Cell.clip 0 100))
  let d5 := setCol d4 "GovernanceScore" ((getCol d4 "GovernanceScore").map (Cell.clip 0 100))
  let d6 := setCol d5 "EmissionsTrend" ((getCol d5 "EmissionsTrend").map (Cell.clip (-50) 50))
  let d7 := setCol d6 "HighEmitter"
      ((getCol d6 "CarbonImpact").map (Cell.gtFlag (riskLevelOf "high_emitter")))
  setCol d7 "Scenario" (List.replicate (nrows d7) (Cell.str name))

/-- `EBAStressEngine.apply_scenario`: scenario-name check, column check, then
the adjustments on a copy of the input. -/
def apply_scenario (df : DataFrame) (scenario_name : String) : Except EBAError DataFrame :=
  match SCENARIOS.find? (fun s => s.1 == scenario_name) with
  | none => Except.error (EBAError.unknownScenario (SCENARIOS.map (fun s => s.1)))
  | some s =>
      let missing := SCENARIO_NEEDED.filter (fun c => !(hasCol df c))
      if missing.isEmpty then
        Except.ok (scenarioBody scenario_name s.2.1 s.2.2 df)
      else
        Except.error (EBAError.missingColumns missing)

/-! ## EBACreditModel.calculate_risk (src/model.py) -/

/-- The `needed` column list in `calculate_risk`. -/
def RISK_NEEDED : List String :=
  ["Debt/Equity", "InterestCoverage", "CarbonImpact",
   "EmissionsTrend", "SocialScore", "GovernanceScore"]

/-- `series / series.max()` — the batch-relative normalization. -/
def normByMax (l : List Cell) : List Cell :=
  l.map (Cell.divBy (colMaxQ l))

/-- Row-wise zip of the six normalized driver columns. -/
def zipWith6 (f : Cell → Cell → Cell → Cell → Cell → Cell → Cell) :
    List Cell → List Cell → List Cell → List Cell → List Cell → List Cell → List Cell
  | a :: as, b :: bs, c :: cs, d :: ds, e :: es, g :: gs =>
      f a b c d e g :: zipWith6 f as bs cs ds es gs
  | _, _, _, _, _, _ => []

/-- The weighted sum of one row's six normalized drivers.  (Float arithmetic
on a missing value gives NaN; modelled as `null`, never exercised under the
numeric hypotheses of the theorems.) -/
def riskScoreCell (d i c e s g : Cell) : Cell :=
  match d, i, c, e, s, g with
  | Cell.num d, Cell.num i, Cell.num c, Cell.num e, Cell.num s, Cell.num g =>
      Cell.num (weight "Debt/Equity" * d + weight "InterestCoverage" * i +
                weight "CarbonImpact" * c + weight "EmissionsTrend" * e +
                weight "SocialScore" * s + weight "GovernanceScore" * g)
  | _, _, _, _, _, _ => Cell.null

/-- `lambda x: 'High Risk' if x >= self.high_risk_limit else 'Safe'`
(NaN compares False, hence maps to 'Safe'). -/
def levelCell : Cell → Cell
  | Cell.num q => Cell.str (if riskLevelOf "high_risk" ≤ q then "High Risk" else "Safe")
  | _ => Cell.str "Safe"

/-- The body of `calculate_risk` after validation: normalizations, Risk Score,
Risk Level, and per-component contributions, written into the dataframe. -/
def riskBody (df : DataFrame) : DataFrame :=
  let debtNorm := normByMax (getCol df "Debt/Equity")
  let interestNorm := normByMax ((getCol df "InterestCoverage").map Cell.inv)
  let carbonNorm := normByMax (getCol df "CarbonImpact")
  let emTrendNorm := (getCol df "EmissionsTrend").map (fun c => Cell.divBy 100 (Cell.shift 50 c))
  let socialNorm := (getCol df "SocialScore").map (fun c => Cell.divBy 100 (Cell.rsub 100 c))
  let govNorm := (getCol df "GovernanceScore").map (fun c => Cell.divBy 100 (Cell.rsub 100 c))
  let riskScore := zipWith6 riskScoreCell debtNorm interestNorm carbonNorm emTrendNorm socialNorm govNorm
  let riskLevel := riskScore.map levelCell
  let d := setCol df "DebtNorm" debtNorm
  let d := setCol d "InterestNorm" interestNorm
  let d := setCol d "CarbonNorm" carbonNorm
  let d := setCol d "EmTrendNorm" emTrendNorm
  let d := setCol d "SocialNorm" socialNorm
  let d := setCol d "GovNorm" govNorm
  let d := setCol d "RiskScore" riskScore
  let d := setCol d "RiskLevel" riskLevel
  let d := setCol d "DebtImpact" (debtNorm.map (Cell.scale (weight "Debt/Equity")))
  let d := setCol d "InterestImpact" (interestNorm.map (Cell.scale (weight "InterestCoverage")))
  let d := setCol d "CarbonImpactScore" (carbonNorm.map (Cell.scale (weight "CarbonImpact")))
  let d := setCol d "EmTrendImpact" (emTrendNorm.map (Cell.scale (weight "EmissionsTrend")))
  let d := setCol d "SocialImpact" (socialNorm.map (Cell.scale (weight "SocialScore")))
  setCol d "GovImpact" (govNorm.map (Cell.scale (weight "GovernanceScore")))

/-- `EBACreditModel.calculate_risk`: column check, then the scoring body.
The returned dataframe is the same object the caller passed (no copy in the
source); the heap model below makes the mutation explicit. -/
def calculate_risk (df : DataFrame) : Except EBAError DataFrame :=
  let missing := RISK_NEEDED.filter (fun c => !(hasCol df c))
  if missing.isEmpty then Except.ok (riskBody df)
  else Except.error (EBAError.missingColumns missing)

/-- `EBACreditModel.estimate_capital` row operation:
`RiskScore * TotalAssets * 0.5`. -/
def capCell : Cell → Cell → Cell
  | Cell.num r, Cell.num t => Cell.num (r * t * (1/2))
  | _, _ => Cell.null

/-- `EBACreditModel.estimate_capital`: requires TotalAssets, returns the
per-row stressed-capital series. -/
def estimate_capital (df : DataFrame) : Except EBAError (List Cell) :=
  if hasCol df "TotalAssets" then
    Except.ok (List.zipWith capCell (getCol df "RiskScore") (getCol df "TotalAssets"))
  else
    Except.error EBAError.missingTotalAssets

/-! ## Heap model of object mutation -/

/-- A heap of dataframe objects; a variable holds an index (reference). -/
abbrev Heap := List DataFrame

/-- Dereference (out-of-range never exercised: valid-reference hypotheses). -/
def heapGet : Heap → Nat → DataFrame
  | [], _ => []
  | d :: _, 0 => d
  | _ :: h, r + 1 => heapGet h r

/-- Write through a reference. -/
def heapSet : Heap → Nat → DataFrame → Heap
  | [], _, _ => []
  | _ :: h, 0, d => d :: h
  | x :: h, r + 1, d => x :: heapSet h r d

/-- `apply_scenario` at the object level: validation reads the caller's
object; on success `df = df.copy()` allocates a fresh object and every
subsequent assignment targets that copy, so the result is a new reference and
no existing object is written. -/
def apply_scenario_heap (h : Heap) (r : Nat) (scenario_name : String) :
    Except EBAError Nat × Heap :=
  match apply_scenario (heapGet h r) scenario_name with
  | Except.error e => (Except.error e, h)
  | Except.ok d => (Except.ok h.length, h ++ [d])

/-- `calculate_risk` at the object level: there is no `.copy()` in the source,
so every column assignment writes the caller's object; the function returns
the same reference it was given.  On the validation-error path nothing has
been assigned yet and the heap is untouched. -/
def calculate_risk_heap (h : Heap) (r : Nat) : Except EBAError Nat × Heap :=
  match calculate_risk (heapGet h r) with
  | Except.error e => (Except.error e, h)
  | Except.ok d => (Except.ok r, heapSet h r d)

/-- Project the dataframe out of a successful call (used by concrete
witnesses/counterexamples only). -/
def okDF (r : Except EBAError DataFrame) : DataFrame :=
  match r with
  | Except.ok d => d
  | Except.error _ => []

/-- Whether a call succeeded. -/
def isOk (r : Except EBAError DataFrame) : Bool :=
  match r with
  | Except.ok _ => true
  | Except.error _ => false

/-! ## IEEE float model for the InterestCoverage division (model.py line 34) -/

/-- Extended float value: NaN, ±∞, or a finite value (exact rational). -/
inductive EFloat where
  | nan
  | inf
  | ninf
  | fin (q : ℚ)
deriving DecidableEq

/-- IEEE division as numpy performs it on these series: `1/0.0 = inf`,
`finite/inf = 0`, `inf/inf = nan`, NaN propagates.  (Signed zero is ignored;
the inputs exercised are nonnegative.) -/
def EFloat.div : EFloat → EFloat → EFloat
  | EFloat.nan, _ => EFloat.nan
  | _, EFloat.nan => EFloat.nan
  | EFloat.inf, EFloat.inf => EFloat.nan
  | EFloat.inf, EFloat.ninf => EFloat.nan
  | EFloat.ninf, EFloat.inf => EFloat.nan
  | EFloat.ninf, EFloat.ninf => EFloat.nan
  | EFloat.inf, EFloat.fin q => if q < 0 then EFloat.ninf else EFloat.inf
  | EFloat.ninf, EFloat.fin q => if q < 0 then EFloat.inf else EFloat.ninf
  | EFloat.fin _, EFloat.inf => EFloat.fin 0
  | EFloat.fin _, EFloat.ninf => EFloat.fin 0
  | EFloat.fin a, EFloat.fin b =>
      if b = 0 then
        (if a = 0 then EFloat.nan else if a < 0 then EFloat.ninf else EFloat.inf)
      else EFloat.fin (a / b)

/-- Binary max with `-∞ < finite < ∞` (NaN handled by the caller's skip). -/
def EFloat.max2 : EFloat → EFloat → EFloat
  | EFloat.inf, _ => EFloat.inf
  | _, EFloat.inf => EFloat.inf
  | EFloat.ninf, y => y
  | x, EFloat.ninf => x
  | EFloat.fin a, EFloat.fin b => EFloat.fin (max a b)
  | EFloat.nan, y => y
  | x, EFloat.nan => x

/-- `series.max()` under float semantics (pandas skips NaN). -/
def efloatMax (l : List EFloat) : EFloat :=
  match l.filter (fun x => !(x == EFloat.nan)) with
  | [] => EFloat.nan
  | x :: xs => xs.foldl EFloat.max2 x

/-- model.py line 34 under float semantics:
`(1 / df['InterestCoverage']) / (1 / df['InterestCoverage']).max()`. -/
def interestNormF (ic : List EFloat) : List EFloat :=
  let inv := ic.map (fun x => EFloat.div (EFloat.fin 1) x)
  inv.map (fun x => EFloat.div x (efloatMax inv))

/-! ## EBAValidator.check_data (src/data_validation.py) -/

/-- `df.isnull().any()` for one column. -/
def colHasNull (l : List Cell) : Bool :=
  l.any (fun c => c == Cell.null)

/-- `(series < t).any()` (NaN/null comparisons are False). -/
def colAnyLt (l : List Cell) (t : ℚ) : Bool :=
  l.any (fun c => match c with | Cell.num q => decide (q < t) | _ => false)

/-- `(series > t).any()`. -/
def colAnyGt (l : List Cell) (t : ℚ) : Bool :=
  l.any (fun c => match c with | Cell.num q => decide (t < q) | _ => false)

/-- `series.gt(t).sum()`. -/
def countGt (l : List Cell) (t : ℚ) : Nat :=
  (l.filter (fun c => match c with | Cell.num q => decide (t < q) | _ => false)).length

/-- `EBAValidator.check_data`: returns (valid?, report lines).  The source
joins the report with newlines; each appended message is one list entry.
Only missing required columns make the result invalid; null values and
out-of-range ESG fields are reported as warnings with the result still True. -/
def check_data (df : DataFrame) : Bool × List String :=
  let missing := MUST_HAVE_COLUMNS.filter (fun c => !(hasCol df c))
  if !missing.isEmpty then
    (false, ["Missing columns: " ++ String.intercalate ", " missing])
  else
    let nullCols := (df.filter (fun c => colHasNull c.2)).map (fun c => c.1)
    let r1 := if !nullCols.isEmpty then
        ["Empty values in: " ++ String.intercalate ", " nullCols] else []
    let r2 := if colAnyLt (getCol df "EmissionsTrend") (-50)
                 || colAnyGt (getCol df "EmissionsTrend") 50 then
        ["EmissionsTrend out of range (-50 to 50)"] else []
    let r3 := if colAnyLt (getCol df "SocialScore") 0
                 || colAnyGt (getCol df "SocialScore") 100 then
        ["SocialScore out of range (0-100)"] else []
    let r4 := if colAnyLt (getCol df "GovernanceScore") 0
                 || colAnyGt (getCol df "GovernanceScore") 100 then
        ["GovernanceScore out of range (0-100)"] else []
    let high := countGt (getCol df "CarbonImpact") (riskLevelOf "high_emitter")
    (true, r1 ++ r2 ++ r3 ++ r4 ++
      ["High Emitters: " ++ toString high ++ " firms (over 500 tCO₂/€M)"])

/-! ## Basic lemmas about the dataframe operations -/

theorem getCol_setCol (df : DataFrame) (n m : String) (v : List Cell) :
    getCol (setCol df n v) m = if n = m then v else getCol df m := by
  induction df with
  | nil =>
      by_cases h : n = m <;> simp [setCol, getCol, h]
  | cons x rest ih =>
      obtain ⟨p, w⟩ := x
      by_cases hpn : p = n
      · subst hpn
        by_cases h : p = m <;> simp [setCol, getCol, h]
      · by_cases h : p = m
        · subst h
          have : ¬ n = p := fun hc => hpn hc.symm
          simp [setCol, getCol, hpn, this]
        · simp [setCol, getCol, hpn, h, ih]

theorem getCol_setCol_self (df : DataFrame) (n : String) (v : List Cell) :
    getCol (setCol df n v) n = v := by
  simp [getCol_setCol]

theorem getCol_setCol_ne (df : DataFrame) (n m : String) (v : List Cell)
    (h : n ≠ m) : getCol (setCol df n v) m = getCol df m := by
  simp [getCol_setCol, h]

theorem hasCol_getCol_mem (df : DataFrame) (n : String) (h : hasCol df n = true) :
    (n, getCol df n) ∈ df := by
  induction df with
  | nil => simp [hasCol] at h
  | cons x rest ih =>
      obtain ⟨p, w⟩ := x
      by_cases hpn : p = n
      · subst hpn; simp [getCol]
      · simp [hasCol, hpn] at h
        simp [getCol, hpn]
        exact Or.inr (ih h)

/-! ## Max lemmas -/

theorem le_foldl_max (q : ℚ) (l : List ℚ) : q ≤ l.foldl max q := by
  induction l generalizing q with
  | nil => simp
  | cons x xs ih =>
      calc q ≤ max q x := le_max_left q x
        _ ≤ xs.foldl max (max q x) := ih (max q x)
        _ = (x :: xs).foldl max q := rfl

theorem mem_le_foldl_max (a q : ℚ) (l : List ℚ) (h : a ∈ l) :
    a ≤ l.foldl max q := by
  induction l generalizing q with
  | nil => simp at h
  | cons x xs ih =>
      rcases List.mem_cons.1 h with h1 | h1
      · subst h1
        calc a ≤ max q a := le_max_right q a
          _ ≤ xs.foldl max (max q a) := le_foldl_max _ _
          _ = (a :: xs).foldl max q := rfl
      · exact ih (max q x) h1

theorem mem_cellNums (q : ℚ) (l : List Cell) :
    q ∈ cellNums l ↔ Cell.num q ∈ l := by
  constructor
  · intro h
    rcases List.mem_filterMap.1 h with ⟨c, hc, hq⟩
    cases c <;> simp_all
  · intro h
    exact List.mem_filterMap.2 ⟨Cell.num q, h, rfl⟩

theorem le_colMaxQ (q : ℚ) (l : List Cell) (h : Cell.num q ∈ l) :
    q ≤ colMaxQ l := by
  have hq : q ∈ cellNums l := (mem_cellNums q l).2 h
  unfold colMaxQ
  cases hn : cellNums l with
  | nil => rw [hn] at hq; simp at hq
  | cons x xs =>
      rw [hn] at hq
      rcases List.mem_cons.1 hq with h1 | h1
      · subst h1; exact le_foldl_max _ _
      · exact mem_le_foldl_max _ _ _ h1

/-! ## Heap lemmas -/

theorem heapGet_append_lt (h : Heap) (d : DataFrame) (r : Nat)
    (hr : r < h.length) : heapGet (h ++ [d]) r = heapGet h r := by
  induction h generalizing r with
  | nil => simp at hr
  | cons x rest ih =>
      cases r with
      | zero => rfl
      | succ r =>
          simp only [List.length_cons, Nat.succ_lt_succ_iff] at hr
          exact ih r hr

theorem heapGet_append_len (h : Heap) (d : DataFrame) :
    heapGet (h ++ [d]) h.length = d := by
  induction h with
  | nil => rfl
  | cons x rest ih => exact ih


/-! ## Cell-level lemmas -/

theorem isNum_shift (a : ℚ) (c : Cell) : Cell.isNum (Cell.shift a c) = Cell.isNum c := by
  cases c <;> rfl

theorem isNum_scale (m : ℚ) (c : Cell) : Cell.isNum (Cell.scale m c) = Cell.isNum c := by
  cases c <;> rfl

theorem numIn_clip (lo hi : ℚ) (hlh : lo ≤ hi) (c : Cell) (hc : Cell.isNum c = true) :
    Cell.numIn lo hi (Cell.clip lo hi c) = true := by
  cases c with
  | num q =>
      simp only [Cell.clip, Cell.numIn, Bool.and_eq_true, decide_eq_true_eq]
      exact ⟨le_min (le_max_right q lo) hlh, min_le_right _ _⟩
  | str s => simp [Cell.isNum] at hc
  | bool b => simp [Cell.isNum] at hc
  | null => simp [Cell.isNum] at hc

theorem forall_isNum_map_shift (a : ℚ) (l : List Cell)
    (h : ∀ c ∈ l, Cell.isNum c = true) :
    ∀ c ∈ l.map (Cell.shift a), Cell.isNum c = true := by
  intro c hc
  rcases List.mem_map.1 hc with ⟨c0, hc0, rfl⟩
  rw [isNum_shift]
  exact h c0 hc0

theorem forall_numIn_map_clip (lo hi : ℚ) (hlh : lo ≤ hi) (l : List Cell)
    (h : ∀ c ∈ l, Cell.isNum c = true) :
    ∀ c ∈ l.map (Cell.clip lo hi), Cell.numIn lo hi c = true := by
  intro c hc
  rcases List.mem_map.1 hc with ⟨c0, hc0, rfl⟩
  exact numIn_clip lo hi hlh c0 (h c0 hc0)

theorem scale_one (c : Cell) : Cell.scale 1 c = c := by
  cases c <;> simp [Cell.scale]

theorem map_scale_one (l : List Cell) : l.map (Cell.scale 1) = l := by
  induction l with
  | nil => rfl
  | cons x xs ih => simp [scale_one, ih]

theorem clip_of_numIn (lo hi : ℚ) (c : Cell) (h : Cell.numIn lo hi c = true) :
    Cell.clip lo hi c = c := by
  cases c with
  | num q =>
      simp only [Cell.numIn, Bool.and_eq_true, decide_eq_true_eq] at h
      simp [Cell.clip, max_eq_left h.1, min_eq_left h.2]
  | str s => rfl
  | bool b => rfl
  | null => rfl

theorem map_clip_of_numIn (lo hi : ℚ) (l : List Cell)
    (h : ∀ c ∈ l, Cell.numIn lo hi c = true) : l.map (Cell.clip lo hi) = l := by
  induction l with
  | nil => rfl
  | cons x xs ih =>
      simp only [List.map_cons]
      rw [clip_of_numIn lo hi x (h x (List.mem_cons_self x xs)),
          ih (fun c hc => h c (List.mem_cons_of_mem x hc))]

/-! ## Column views of the scenario shifts -/

theorem stressShifts_social (name : String) (df : DataFrame) :
    getCol (stressShifts name df) "SocialScore"
      = if name = "Physical Stress" then
          (getCol df "SocialScore").map (Cell.shift (-10))
        else getCol df "SocialScore" := by
  unfold stressShifts
  by_cases h1 : name = "Transition Stress"
  · subst h1; simp [getCol_setCol]
  · by_cases h2 : name = "Physical Stress"
    · subst h2; simp [getCol_setCol]
    · simp [h1, h2]

theorem stressShifts_gov (name : String) (df : DataFrame) :
    getCol (stressShifts name df) "GovernanceScore"
      = if name = "Transition Stress" then
          (getCol df "GovernanceScore").map (Cell.shift (-5))
        else getCol df "GovernanceScore" := by
  unfold stressShifts
  by_cases h1 : name = "Transition Stress"
  · subst h1; simp [getCol_setCol]
  · by_cases h2 : name = "Physical Stress"
    · subst h2; simp [getCol_setCol]
    · simp [h1, h2]

theorem stressShifts_em (name : String) (df : DataFrame) :
    getCol (stressShifts name df) "EmissionsTrend"
      = if name = "Transition Stress" then
          (getCol df "EmissionsTrend").map (Cell.shift 10)
        else if name = "Physical Stress" then
          (getCol df "EmissionsTrend").map (Cell.shift (-5))
        else getCol df "EmissionsTrend" := by
  unfold stressShifts
  by_cases h1 : name = "Transition Stress"
  · subst h1; simp [getCol_setCol]
  · by_cases h2 : name = "Physical Stress"
    · subst h2; simp [getCol_setCol, h1]
    · simp [h1, h2]

theorem stressShifts_other (name col : String) (df : DataFrame)
    (h1 : col ≠ "EmissionsTrend") (h2 : col ≠ "GovernanceScore")
    (h3 : col ≠ "SocialScore") :
    getCol (stressShifts name df) col = getCol df col := by
  unfold stressShifts
  by_cases ht : name = "Transition Stress"
  · subst ht
    simp [getCol_setCol, Ne.symm h1, Ne.symm h2]
  · by_cases hp : name = "Physical Stress"
    · subst hp
      simp [ht, getCol_setCol, Ne.symm h1, Ne.symm h3]
    · simp [ht, hp]

/-- The clipped columns of the scenario body, as maps over the shifted input. -/
theorem scenarioBody_social (name : String) (cm vm : ℚ) (df : DataFrame) :
    getCol (scenarioBody name cm vm df) "SocialScore"
      = (getCol (stressShifts name
          (setCol (setCol df "CarbonImpact" ((getCol df "CarbonImpact").map (Cell.scale cm)))
            "InterestCoverage"
            ((getCol (setCol df "CarbonImpact" ((getCol df "CarbonImpact").map (Cell.scale cm)))
                "InterestCoverage").map (Cell.scale vm)))) "SocialScore").map (Cell.clip 0 100) := by
  unfold scenarioBody
  simp [getCol_setCol]

theorem scenarioBody_gov (name : String) (cm vm : ℚ) (df : DataFrame) :
    getCol (scenarioBody name cm vm df) "GovernanceScore"
      = (getCol (stressShifts name
          (setCol (setCol df "CarbonImpact" ((getCol df "CarbonImpact").map (Cell.scale cm)))
            "InterestCoverage"
            ((getCol (setCol df "CarbonImpact" ((getCol df "CarbonImpact").map (Cell.scale cm)))
                "InterestCoverage").map (Cell.scale vm)))) "GovernanceScore").map (Cell.clip 0 100) := by
  unfold scenarioBody
  simp [getCol_setCol]

theorem scenarioBody_em (name : String) (cm vm : ℚ) (df : DataFrame) :
    getCol (scenarioBody name cm vm df) "EmissionsTrend"
      = (getCol (stressShifts name
          (setCol (setCol df "CarbonImpact" ((getCol df "CarbonImpact").map (Cell.scale cm)))
            "InterestCoverage"
            ((getCol (setCol df "CarbonImpact" ((getCol df "CarbonImpact").map (Cell.scale cm)))
                "InterestCoverage").map (Cell.scale vm)))) "EmissionsTrend").map (Cell.clip (-50) 50) := by
  unfold scenarioBody
  simp [getCol_setCol]

/-- C1: for every scenario in the registry and every input dataset with the
required (numeric) columns, every row of the dataset returned by
`apply_scenario` has SocialScore in [0,100], GovernanceScore in [0,100] and
EmissionsTrend in [-50,50], even if the pre-adjustment values were outside
those ranges. -/
theorem apply_scenario_clamps (df df' : DataFrame) (name : String)
    (hok : apply_scenario df name = Except.ok df')
    (hso : ∀ c ∈ getCol df "SocialScore", Cell.isNum c = true)
    (hgo : ∀ c ∈ getCol df "GovernanceScore", Cell.isNum c = true)
    (hem : ∀ c ∈ getCol df "EmissionsTrend", Cell.isNum c = true) :
    (∀ c ∈ getCol df' "SocialScore", Cell.numIn 0 100 c = true)
    ∧ (∀ c ∈ getCol df' "GovernanceScore", Cell.numIn 0 100 c = true)
    ∧ (∀ c ∈ getCol df' "EmissionsTrend", Cell.numIn (-50) 50 c = true) := by
  unfold apply_scenario at hok
  cases hfind : SCENARIOS.find? (fun s => s.1 == name) with
  | none => rw [hfind] at hok; cases hok
  | some s =>
      rw [hfind] at hok
      by_cases hm : (SCENARIO_NEEDED.filter (fun c => !(hasCol df c))).isEmpty
      · simp only [hm, if_true] at hok
        injection hok with hok
        subst hok
        refine ⟨?_, ?_, ?_⟩
        · rw [scenarioBody_social]
          apply forall_numIn_map_clip 0 100 (by norm_num)
          rw [stressShifts_social]
          by_cases hp : name = "Physical Stress"
          · simp only [if_pos hp]
            apply forall_isNum_map_shift
            simp only [getCol_setCol]
            simpa using hso
          · simp only [if_neg hp]
            simp only [getCol_setCol]
            simpa using hso
        · rw [scenarioBody_gov]
          apply forall_numIn_map_clip 0 100 (by norm_num)
          rw [stressShifts_gov]
          by_cases ht : name = "Transition Stress"
          · simp only [if_pos ht]
            apply forall_isNum_map_shift
            simp only [getCol_setCol]
            simpa using hgo
          · simp only [if_neg ht]
            simp only [getCol_setCol]
            simpa using hgo
        · rw [scenarioBody_em]
          apply forall_numIn_map_clip (-50) 50 (by norm_num)
          rw [stressShifts_em]
          by_cases ht : name = "Transition Stress"
          · simp only [if_pos ht]
            apply forall_isNum_map_shift
            simp only [getCol_setCol]
            simpa using hem
          · by_cases hp : name = "Physical Stress"
            · simp only [if_neg ht, if_pos hp]
              apply forall_isNum_map_shift
              simp only [getCol_setCol]
              simpa using hem
            · simp only [if_neg ht, if_neg hp]
              simp only [getCol_setCol]
              simpa using hem
      · simp only [hm, if_false] at hok
        cases hok

/-- Concrete input for the C1 witness: SocialScore below 0 after the Physical
shift and EmissionsTrend above 50 after clipping territory. -/
def wdfClamp : DataFrame :=
  [("CarbonImpact", [Cell.num 600, Cell.num 100]),
   ("InterestCoverage", [Cell.num 5, Cell.num 2]),
   ("EmissionsTrend", [Cell.num 49, Cell.num (-60)]),
   ("SocialScore", [Cell.num 4, Cell.num 120]),
   ("GovernanceScore", [Cell.num 2, Cell.num 97])]

theorem apply_scenario_clamps_witness :
    (∀ c ∈ getCol (okDF (apply_scenario wdfClamp "Physical Stress")) "SocialScore",
        Cell.numIn 0 100 c = true)
    ∧ (∀ c ∈ getCol (okDF (apply_scenario wdfClamp "Physical Stress")) "GovernanceScore",
        Cell.numIn 0 100 c = true)
    ∧ (∀ c ∈ getCol (okDF (apply_scenario wdfClamp "Physical Stress")) "EmissionsTrend",
        Cell.numIn (-50) 50 c = true) :=
  apply_scenario_clamps wdfClamp (okDF (apply_scenario wdfClamp "Physical Stress"))
    "Physical Stress" rfl (by decide) (by decide) (by decide)

/-- Counterexample input for C6: SocialScore 150 is outside [0,100], so the
final clip changes it even under the identity multipliers of "Normal". -/
def wdfNormalCex : DataFrame :=
  [("CarbonImpact", [Cell.num 100]),
   ("InterestCoverage", [Cell.num 5]),
   ("EmissionsTrend", [Cell.num 0]),
   ("SocialScore", [Cell.num 150]),
   ("GovernanceScore", [Cell.num 50])]

/-- C6 counterexample: `apply_scenario(D, "Normal")` is not the identity on
SocialScore when the input value 150 is out of range — the returned value is
the clipped 100. -/
theorem apply_scenario_normal_not_identity :
    isOk (apply_scenario wdfNormalCex "Normal") = true
    ∧ getCol (okDF (apply_scenario wdfNormalCex "Normal")) "SocialScore" = [Cell.num 100]
    ∧ getCol wdfNormalCex "SocialScore" = [Cell.num 150] := by
  decide

/-- C6 (amended): applying the "Normal" scenario (multipliers 1.0, no shifts)
returns CarbonImpact, InterestCoverage, EmissionsTrend, SocialScore and
GovernanceScore equal to the input for every row, provided the clipped
columns were already inside their domains (SocialScore/GovernanceScore in
[0,100], EmissionsTrend in [-50,50]). -/
theorem apply_scenario_normal_identity (df df' : DataFrame)
    (hok : apply_scenario df "Normal" = Except.ok df')
    (hso : ∀ c ∈ getCol df "SocialScore", Cell.numIn 0 100 c = true)
    (hgo : ∀ c ∈ getCol df "GovernanceScore", Cell.numIn 0 100 c = true)
    (hem : ∀ c ∈ getCol df "EmissionsTrend", Cell.numIn (-50) 50 c = true) :
    getCol df' "CarbonImpact" = getCol df "CarbonImpact"
    ∧ getCol df' "InterestCoverage" = getCol df "InterestCoverage"
    ∧ getCol df' "EmissionsTrend" = getCol df "EmissionsTrend"
    ∧ getCol df' "SocialScore" = getCol df "SocialScore"
    ∧ getCol df' "GovernanceScore" = getCol df "GovernanceScore" := by
  have hfind : SCENARIOS.find? (fun s => s.1 == "Normal") = some ("Normal", (1, 1)) := by
    decide
  unfold apply_scenario at hok
  rw [hfind] at hok
  by_cases hm : (SCENARIO_NEEDED.filter (fun c => !(hasCol df c))).isEmpty
  · simp only [hm, if_true] at hok
    injection hok with hok
    subst hok
    refine ⟨?_, ?_, ?_, ?_, ?_⟩
    · simp [scenarioBody, stressShifts, getCol_setCol, map_scale_one]
    · simp [scenarioBody, stressShifts, getCol_setCol, map_scale_one]
    · simp only [scenarioBody, stressShifts]
      simp only [getCol_setCol]
      simp only [show ¬("Normal" = "Transition Stress") from by decide,
                 show ¬("Normal" = "Physical Stress") from by decide, if_false]
      simp [getCol_setCol]
      exact map_clip_of_numIn (-50) 50 _ hem
    · simp only [scenarioBody, stressShifts]
      simp only [getCol_setCol]
      simp only [show ¬("Normal" = "Transition Stress") from by decide,
                 show ¬("Normal" = "Physical Stress") from by decide, if_false]
      simp [getCol_setCol]
      exact map_clip_of_numIn 0 100 _ hso
    · simp only [scenarioBody, stressShifts]
      simp only [getCol_setCol]
      simp only [show ¬("Normal" = "Transition Stress") from by decide,
                 show ¬("Normal" = "Physical Stress") from by decide, if_false]
      simp [getCol_setCol]
      exact map_clip_of_numIn 0 100 _ hgo
  · simp only [hm, if_false] at hok
    cases hok

/-- In-range concrete input for the C6 witness. -/
def wdfNormal : DataFrame :=
  [("CarbonImpact", [Cell.num 100, Cell.num 600]),
   ("InterestCoverage", [Cell.num 5, Cell.num 2]),
   ("EmissionsTrend", [Cell.num 20, Cell.num (-30)]),
   ("SocialScore", [Cell.num 60, Cell.num 0]),
   ("GovernanceScore", [Cell.num 100, Cell.num 40])]

theorem apply_scenario_normal_identity_witness :
    getCol (okDF (apply_scenario wdfNormal "Normal")) "CarbonImpact"
        = getCol wdfNormal "CarbonImpact"
    ∧ getCol (okDF (apply_scenario wdfNormal "Normal")) "InterestCoverage"
        = getCol wdfNormal "InterestCoverage"
    ∧ getCol (okDF (apply_scenario wdfNormal "Normal")) "EmissionsTrend"
        = getCol wdfNormal "EmissionsTrend"
    ∧ getCol (okDF (apply_scenario wdfNormal "Normal")) "SocialScore"
        = getCol wdfNormal "SocialScore"
    ∧ getCol (okDF (apply_scenario wdfNormal "Normal")) "GovernanceScore"
        = getCol wdfNormal "GovernanceScore" :=
  apply_scenario_normal_identity wdfNormal (okDF (apply_scenario wdfNormal "Normal"))
    rfl (by decide) (by decide) (by decide)

/-- C7: `apply_scenario` fails before touching the data: an unregistered
scenario name gives an error whose payload enumerates the valid scenario
names; a registered name with absent required columns gives an error naming
exactly the absent columns; and on any error path the heap (hence every
dataframe object) is untouched. -/
theorem apply_scenario_validation :
    (∀ (df : DataFrame) (name : String), name ∉ SCENARIOS.map (fun s => s.1) →
        apply_scenario df name
          = Except.error (EBAError.unknownScenario
              ["Normal", "Transition Stress", "Physical Stress"]))
    ∧ (∀ (df : DataFrame) (name : String), name ∈ SCENARIOS.map (fun s => s.1) →
        SCENARIO_NEEDED.filter (fun c => !(hasCol df c)) ≠ [] →
        apply_scenario df name
            = Except.error (EBAError.missingColumns
                (SCENARIO_NEEDED.filter (fun c => !(hasCol df c))))
          ∧ ∀ c, c ∈ SCENARIO_NEEDED.filter (fun c => !(hasCol df c))
              ↔ (c ∈ SCENARIO_NEEDED ∧ hasCol df c = false))
    ∧ (∀ (h : Heap) (r : Nat) (name : String) (e : EBAError),
        (apply_scenario_heap h r name).1 = Except.error e →
        (apply_scenario_heap h r name).2 = h) := by
  refine ⟨?_, ?_, ?_⟩
  · intro df name hname
    have hfind : SCENARIOS.find? (fun s => s.1 == name) = none := by
      apply List.find?_eq_none.2
      intro x hx hpx
      exact hname (List.mem_map.2 ⟨x, hx, by simpa using hpx⟩)
    unfold apply_scenario
    rw [hfind]
    rfl
  · intro df name hname hmiss
    have hne : (SCENARIO_NEEDED.filter (fun c => !(hasCol df c))).isEmpty = false := by
      cases hx : SCENARIO_NEEDED.filter (fun c => !(hasCol df c)) with
      | nil => exact absurd hx hmiss
      | cons a l => rfl
    constructor
    · have hname3 : name = "Normal" ∨ name = "Transition Stress"
          ∨ name = "Physical Stress" := by simpa [SCENARIOS] using hname
      rcases hname3 with h1 | h1 | h1 <;>
        (subst h1; unfold apply_scenario; simp [hne]) <;> try rfl
    · intro c
      simp [List.mem_filter]
  · intro h r name e herr
    unfold apply_scenario_heap at herr ⊢
    cases happ : apply_scenario (heapGet h r) name with
    | error e2 => rfl
    | ok d => rw [happ] at herr; cases herr

/-- Concrete input for the C7 witness: only CarbonImpact is present. -/
def wdfMissing : DataFrame := [("CarbonImpact", [Cell.num 1])]

theorem apply_scenario_validation_witness :
    (apply_scenario wdfMissing "Hot House World"
        = Except.error (EBAError.unknownScenario
            ["Normal", "Transition Stress", "Physical Stress"]))
    ∧ (apply_scenario wdfMissing "Normal"
          = Except.error (EBAError.missingColumns
              (SCENARIO_NEEDED.filter (fun c => !(hasCol wdfMissing c))))
        ∧ ∀ c, c ∈ SCENARIO_NEEDED.filter (fun c => !(hasCol wdfMissing c))
            ↔ (c ∈ SCENARIO_NEEDED ∧ hasCol wdfMissing c = false))
    ∧ (apply_scenario_heap [wdfMissing] 0 "Normal").2 = [wdfMissing] :=
  ⟨apply_scenario_validation.1 wdfMissing "Hot House World" (by decide),
   apply_scenario_validation.2.1 wdfMissing "Normal" (by decide) (by decide),
   apply_scenario_validation.2.2 [wdfMissing] 0 "Normal"
     (EBAError.missingColumns
       (SCENARIO_NEEDED.filter (fun c => !(hasCol wdfMissing c)))) rfl⟩

/-- C4: `apply_scenario` never mutates its input.  Part 1: after a call, every
pre-existing dataframe object (in particular the argument) is unchanged.
Part 2: applying s1 then s2 to the same base reference produces exactly the
pure scenario results of the ORIGINAL dataframe in both orders — results are
order-independent with no cross-contamination. -/
theorem apply_scenario_no_mutation :
    (∀ (h : Heap) (r : Nat) (name : String) (r2 : Nat), r2 < h.length →
        heapGet (apply_scenario_heap h r name).2 r2 = heapGet h r2)
    ∧ (∀ (h : Heap) (r : Nat) (s1 s2 : String) (d1 d2 : DataFrame),
        r < h.length →
        apply_scenario (heapGet h r) s1 = Except.ok d1 →
        apply_scenario (heapGet h r) s2 = Except.ok d2 →
        heapGet (apply_scenario_heap (apply_scenario_heap h r s1).2 r s2).2 h.length = d1
        ∧ heapGet (apply_scenario_heap (apply_scenario_heap h r s1).2 r s2).2
            (h.length + 1) = d2
        ∧ heapGet (apply_scenario_heap (apply_scenario_heap h r s2).2 r s1).2 h.length = d2
        ∧ heapGet (apply_scenario_heap (apply_scenario_heap h r s2).2 r s1).2
            (h.length + 1) = d1) := by
  have frame : ∀ (h : Heap) (r : Nat) (name : String) (r2 : Nat), r2 < h.length →
      heapGet (apply_scenario_heap h r name).2 r2 = heapGet h r2 := by
    intro h r name r2 hr2
    unfold apply_scenario_heap
    cases happ : apply_scenario (heapGet h r) name with
    | error e => rfl
    | ok d => exact heapGet_append_lt h d r2 hr2
  have run : ∀ (h : Heap) (r : Nat) (name : String) (d : DataFrame),
      apply_scenario (heapGet h r) name = Except.ok d →
      (apply_scenario_heap h r name).2 = h ++ [d] := by
    intro h r name d happ
    unfold apply_scenario_heap
    rw [happ]
  refine ⟨frame, ?_⟩
  intro h r s1 s2 d1 d2 hr h1 h2
  have e1 : (apply_scenario_heap h r s1).2 = h ++ [d1] := run h r s1 d1 h1
  have e2 : (apply_scenario_heap h r s2).2 = h ++ [d2] := run h r s2 d2 h2
  have g1 : heapGet (h ++ [d1]) r = heapGet h r := heapGet_append_lt h d1 r hr
  have g2 : heapGet (h ++ [d2]) r = heapGet h r := heapGet_append_lt h d2 r hr
  have e12 : (apply_scenario_heap (h ++ [d1]) r s2).2 = (h ++ [d1]) ++ [d2] := by
    apply run
    rw [g1]
    exact h2
  have e21 : (apply_scenario_heap (h ++ [d2]) r s1).2 = (h ++ [d2]) ++ [d1] := by
    apply run
    rw [g2]
    exact h1
  rw [e1, e2, e12, e21]
  have len1 : h.length < (h ++ [d1]).length := by simp
  have len2 : h.length < (h ++ [d2]).length := by simp
  refine ⟨?_, ?_, ?_, ?_⟩
  · rw [heapGet_append_lt _ d2 h.length len1]
    exact heapGet_append_len h d1
  · have : (h ++ [d1]).length = h.length + 1 := by simp
    rw [← this]
    exact heapGet_append_len (h ++ [d1]) d2
  · rw [heapGet_append_lt _ d1 h.length len2]
    exact heapGet_append_len h d2
  · have : (h ++ [d2]).length = h.length + 1 := by simp
    rw [← this]
    exact heapGet_append_len (h ++ [d2]) d1

/-- Concrete input for the C4 witness. -/
def wdfBase : DataFrame :=
  [("CarbonImpact", [Cell.num 400]),
   ("InterestCoverage", [Cell.num 5]),
   ("EmissionsTrend", [Cell.num 0]),
   ("SocialScore", [Cell.num 80]),
   ("GovernanceScore", [Cell.num 80])]

theorem apply_scenario_no_mutation_witness :
    heapGet (apply_scenario_heap [wdfBase] 0 "Transition Stress").2 0 = heapGet [wdfBase] 0
    ∧ heapGet (apply_scenario_heap
        (apply_scenario_heap [wdfBase] 0 "Transition Stress").2 0 "Physical Stress").2 1
      = okDF (apply_scenario wdfBase "Transition Stress") :=
  ⟨apply_scenario_no_mutation.1 [wdfBase] 0 "Transition Stress" 0 (by decide),
   (apply_scenario_no_mutation.2 [wdfBase] 0 "Transition Stress" "Physical Stress"
      (okDF (apply_scenario wdfBase "Transition Stress"))
      (okDF (apply_scenario wdfBase "Physical Stress"))
      (by decide) rfl rfl).1⟩

/-! ## Column views of the risk-model body -/

theorem riskBody_debtNorm (df : DataFrame) :
    getCol (riskBody df) "DebtNorm" = normByMax (getCol df "Debt/Equity") := by
  simp [riskBody, getCol_setCol]

theorem riskBody_interestNorm (df : DataFrame) :
    getCol (riskBody df) "InterestNorm"
      = normByMax ((getCol df "InterestCoverage").map Cell.inv) := by
  simp [riskBody, getCol_setCol]

theorem riskBody_carbonNorm (df : DataFrame) :
    getCol (riskBody df) "CarbonNorm" = normByMax (getCol df "CarbonImpact") := by
  simp [riskBody, getCol_setCol]

theorem riskBody_emTrendNorm (df : DataFrame) :
    getCol (riskBody df) "EmTrendNorm"
      = (getCol df "EmissionsTrend").map (fun c => Cell.divBy 100 (Cell.shift 50 c)) := by
  simp [riskBody, getCol_setCol]

theorem riskBody_socialNorm (df : DataFrame) :
    getCol (riskBody df) "SocialNorm"
      = (getCol df "SocialScore").map (fun c => Cell.divBy 100 (Cell.rsub 100 c)) := by
  simp [riskBody, getCol_setCol]

theorem riskBody_govNorm (df : DataFrame) :
    getCol (riskBody df) "GovNorm"
      = (getCol df "GovernanceScore").map (fun c => Cell.divBy 100 (Cell.rsub 100 c)) := by
  simp [riskBody, getCol_setCol]

theorem riskBody_riskScore (df : DataFrame) :
    getCol (riskBody df) "RiskScore"
      = zipWith6 riskScoreCell
          (normByMax (getCol df "Debt/Equity"))
          (normByMax ((getCol df "InterestCoverage").map Cell.inv))
          (normByMax (getCol df "CarbonImpact"))
          ((getCol df "EmissionsTrend").map (fun c => Cell.divBy 100 (Cell.shift 50 c)))
          ((getCol df "SocialScore").map (fun c => Cell.divBy 100 (Cell.rsub 100 c)))
          ((getCol df "GovernanceScore").map (fun c => Cell.divBy 100 (Cell.rsub 100 c))) := by
  simp [riskBody, getCol_setCol]

theorem riskBody_riskLevel (df : DataFrame) :
    getCol (riskBody df) "RiskLevel" = (getCol (riskBody df) "RiskScore").map levelCell := by
  simp [riskBody, getCol_setCol]

/-- Success of `calculate_risk` pins the result to `riskBody`. -/
theorem calculate_risk_ok (df df' : DataFrame)
    (hok : calculate_risk df = Except.ok df') : df' = riskBody df := by
  unfold calculate_risk at hok
  by_cases hm : (RISK_NEEDED.filter (fun c => !(hasCol df c))).isEmpty
  · simp only [hm, if_true] at hok
    injection hok with hok
    exact hok.symm
  · simp only [hm, if_false] at hok
    cases hok

/-- C2: in the result of `calculate_risk`, every row's RiskLevel is
"High Risk" exactly when its RiskScore is at least the configured high_risk
threshold (0.4), and "Safe" exactly when it is below it. -/
theorem calculate_risk_threshold (df df' : DataFrame)
    (hok : calculate_risk df = Except.ok df') (i : Nat) (q : ℚ)
    (hq : (getCol df' "RiskScore")[i]? = some (Cell.num q)) :
    ((getCol df' "RiskLevel")[i]? = some (Cell.str "High Risk")
        ↔ riskLevelOf "high_risk" ≤ q)
    ∧ ((getCol df' "RiskLevel")[i]? = some (Cell.str "Safe")
        ↔ q < riskLevelOf "high_risk") := by
  have hdf : df' = riskBody df := calculate_risk_ok df df' hok
  subst hdf
  rw [riskBody_riskLevel, List.getElem?_map, hq]
  simp only [Option.map_some']
  by_cases hc : riskLevelOf "high_risk" ≤ q
  · rw [show levelCell (Cell.num q) = Cell.str "High Risk" by
        simp [levelCell, hc]]
    simp [hc, not_lt.2 hc]
  · rw [show levelCell (Cell.num q) = Cell.str "Safe" by
        simp [levelCell, hc]]
    simp [hc, not_le.1 hc]

/-- Concrete input for the C2 witness: a one-row batch in which every
normalized driver is 1, so the RiskScore is the weight sum 1. -/
def wdfRisk : DataFrame :=
  [("Debt/Equity", [Cell.num 2]),
   ("InterestCoverage", [Cell.num 4]),
   ("CarbonImpact", [Cell.num 600]),
   ("EmissionsTrend", [Cell.num 50]),
   ("SocialScore", [Cell.num 0]),
   ("GovernanceScore", [Cell.num 0])]

theorem calculate_risk_threshold_witness :
    ((getCol (okDF (calculate_risk wdfRisk)) "RiskLevel")[0]? = some (Cell.str "High Risk")
        ↔ riskLevelOf "high_risk" ≤ (1 : ℚ))
    ∧ ((getCol (okDF (calculate_risk wdfRisk)) "RiskLevel")[0]? = some (Cell.str "Safe")
        ↔ (1 : ℚ) < riskLevelOf "high_risk") :=
  calculate_risk_threshold wdfRisk (okDF (calculate_risk wdfRisk)) rfl 0 1
    (by
      show (getCol (riskBody wdfRisk) "RiskScore")[0]? = some (Cell.num 1)
      rw [riskBody_riskScore]
      simp only [wdfRisk, getCol, normByMax, colMaxQ, cellNums, List.filterMap, List.map,
        Cell.inv, Cell.divBy, Cell.shift, Cell.rsub, zipWith6, riskScoreCell, List.foldl]
      norm_num
      rw [show weight "Debt/Equity" = 35/100 from rfl,
          show weight "InterestCoverage" = 25/100 from rfl,
          show weight "CarbonImpact" = 20/100 from rfl,
          show weight "EmissionsTrend" = 10/100 from rfl,
          show weight "SocialScore" = 5/100 from rfl,
          show weight "GovernanceScore" = 5/100 from rfl]
      norm_num)

/-! ## Range lemmas for the normalized drivers -/

theorem normByMax_range (l : List Cell)
    (h0 : ∀ c ∈ l, Cell.numGe 0 c = true)
    (h1 : ∃ c ∈ l, Cell.numGt 0 c = true) :
    ∀ c ∈ normByMax l, Cell.numIn 0 1 c = true := by
  obtain ⟨c1, hc1, hgt⟩ := h1
  cases c1 with
  | num q1 =>
      have hq1 : (0 : ℚ) < q1 := by simpa [Cell.numGt] using hgt
      have hM : (0 : ℚ) < colMaxQ l := lt_of_lt_of_le hq1 (le_colMaxQ q1 l hc1)
      intro c hc
      rcases List.mem_map.1 hc with ⟨c0, hc0, rfl⟩
      cases c0 with
      | num q =>
          have hq0 : (0 : ℚ) ≤ q := by simpa [Cell.numGe] using h0 _ hc0
          have hqM : q ≤ colMaxQ l := le_colMaxQ q l hc0
          simp only [Cell.divBy, Cell.numIn, Bool.and_eq_true, decide_eq_true_eq]
          exact ⟨div_nonneg hq0 (le_of_lt hM), (div_le_one hM).2 hqM⟩
      | str s => simpa [Cell.numGe] using h0 _ hc0
      | bool b => simpa [Cell.numGe] using h0 _ hc0
      | null => simpa [Cell.numGe] using h0 _ hc0
  | str s => simp [Cell.numGt] at hgt
  | bool b => simp [Cell.numGt] at hgt
  | null => simp [Cell.numGt] at hgt

theorem normByMax_range_pos (l : List Cell)
    (h : ∀ c ∈ l, Cell.numGt 0 c = true) :
    ∀ c ∈ normByMax l, Cell.numIn 0 1 c = true := by
  intro c hc
  rcases List.mem_map.1 hc with ⟨c0, hc0, rfl⟩
  cases c0 with
  | num q =>
      have hq : (0 : ℚ) < q := by simpa [Cell.numGt] using h _ hc0
      have hqM : q ≤ colMaxQ l := le_colMaxQ q l hc0
      have hM : (0 : ℚ) < colMaxQ l := lt_of_lt_of_le hq hqM
      simp only [Cell.divBy, Cell.numIn, Bool.and_eq_true, decide_eq_true_eq]
      exact ⟨div_nonneg (le_of_lt hq) (le_of_lt hM), (div_le_one hM).2 hqM⟩
  | str s => simpa [Cell.numGt] using h _ hc0
  | bool b => simpa [Cell.numGt] using h _ hc0
  | null => simpa [Cell.numGt] using h _ hc0

theorem map_inv_pos (l : List Cell) (h : ∀ c ∈ l, Cell.numGt 0 c = true) :
    ∀ c ∈ l.map Cell.inv, Cell.numGt 0 c = true := by
  intro c hc
  rcases List.mem_map.1 hc with ⟨c0, hc0, rfl⟩
  cases c0 with
  | num q =>
      have hq : (0 : ℚ) < q := by simpa [Cell.numGt] using h _ hc0
      simp only [Cell.inv, Cell.numGt, decide_eq_true_eq]
      exact one_div_pos.2 hq
  | str s => simpa [Cell.numGt] using h _ hc0
  | bool b => simpa [Cell.numGt] using h _ hc0
  | null => simpa [Cell.numGt] using h _ hc0

theorem emTrendNorm_range (l : List Cell)
    (h : ∀ c ∈ l, Cell.numIn (-50) 50 c = true) :
    ∀ c ∈ l.map (fun c => Cell.divBy 100 (Cell.shift 50 c)), Cell.numIn 0 1 c = true := by
  intro c hc
  rcases List.mem_map.1 hc with ⟨c0, hc0, rfl⟩
  cases c0 with
  | num q =>
      have hq := h _ hc0
      simp only [Cell.numIn, Bool.and_eq_true, decide_eq_true_eq] at hq
      simp only [Cell.shift, Cell.divBy, Cell.numIn, Bool.and_eq_true, decide_eq_true_eq]
      constructor
      · apply div_nonneg _ (by norm_num)
        linarith [hq.1]
      · rw [div_le_one (by norm_num : (0:ℚ) < 100)]
        linarith [hq.2]
  | str s => simpa [Cell.numIn] using h _ hc0
  | bool b => simpa [Cell.numIn] using h _ hc0
  | null => simpa [Cell.numIn] using h _ hc0

theorem scoreNorm_range (l : List Cell)
    (h : ∀ c ∈ l, Cell.numIn 0 100 c = true) :
    ∀ c ∈ l.map (fun c => Cell.divBy 100 (Cell.rsub 100 c)), Cell.numIn 0 1 c = true := by
  intro c hc
  rcases List.mem_map.1 hc with ⟨c0, hc0, rfl⟩
  cases c0 with
  | num q =>
      have hq := h _ hc0
      simp only [Cell.numIn, Bool.and_eq_true, decide_eq_true_eq] at hq
      simp only [Cell.rsub, Cell.divBy, Cell.numIn, Bool.and_eq_true, decide_eq_true_eq]
      constructor
      · apply div_nonneg _ (by norm_num)
        linarith [hq.2]
      · rw [div_le_one (by norm_num : (0:ℚ) < 100)]
        linarith [hq.1]
  | str s => simpa [Cell.numIn] using h _ hc0
  | bool b => simpa [Cell.numIn] using h _ hc0
  | null => simpa [Cell.numIn] using h _ hc0

theorem mem_zipWith6 (f : Cell → Cell → Cell → Cell → Cell → Cell → Cell)
    (as bs cs ds es gs : List Cell) (x : Cell)
    (hx : x ∈ zipWith6 f as bs cs ds es gs) :
    ∃ a ∈ as, ∃ b ∈ bs, ∃ c ∈ cs, ∃ d ∈ ds, ∃ e ∈ es, ∃ g ∈ gs,
      x = f a b c d e g := by
  induction as generalizing bs cs ds es gs with
  | nil => simp [zipWith6] at hx
  | cons a as ih =>
      cases bs with
      | nil => simp [zipWith6] at hx
      | cons b bs =>
      cases cs with
      | nil => simp [zipWith6] at hx
      | cons c cs =>
      cases ds with
      | nil => simp [zipWith6] at hx
      | cons d ds =>
      cases es with
      | nil => simp [zipWith6] at hx
      | cons e es =>
      cases gs with
      | nil => simp [zipWith6] at hx
      | cons g gs =>
          rw [zipWith6] at hx
          rcases List.mem_cons.1 hx with h1 | h1
          · exact ⟨a, List.mem_cons_self a as, b, List.mem_cons_self b bs,
              c, List.mem_cons_self c cs, d, List.mem_cons_self d ds,
              e, List.mem_cons_self e es, g, List.mem_cons_self g gs, h1⟩
          · obtain ⟨a2, ha2, b2, hb2, c2, hc2, d2, hd2, e2, he2, g2, hg2, hx2⟩ :=
              ih bs cs ds es gs h1
            exact ⟨a2, List.mem_cons_of_mem a ha2, b2, List.mem_cons_of_mem b hb2,
              c2, List.mem_cons_of_mem c hc2, d2, List.mem_cons_of_mem d hd2,
              e2, List.mem_cons_of_mem e he2, g2, List.mem_cons_of_mem g hg2, hx2⟩

theorem riskScoreCell_range (d i c e s g : Cell)
    (hd : Cell.numIn 0 1 d = true) (hi : Cell.numIn 0 1 i = true)
    (hc : Cell.numIn 0 1 c = true) (he : Cell.numIn 0 1 e = true)
    (hs : Cell.numIn 0 1 s = true) (hg : Cell.numIn 0 1 g = true) :
    Cell.numIn 0 1 (riskScoreCell d i c e s g) = true := by
  cases d <;> simp [Cell.numIn] at hd
  cases i <;> simp [Cell.numIn] at hi
  cases c <;> simp [Cell.numIn] at hc
  cases e <;> simp [Cell.numIn] at he
  cases s <;> simp [Cell.numIn] at hs
  cases g <;> simp [Cell.numIn] at hg
  simp only [riskScoreCell, Cell.numIn, Bool.and_eq_true, decide_eq_true_eq]
  rw [show weight "Debt/Equity" = 35/100 from rfl,
      show weight "InterestCoverage" = 25/100 from rfl,
      show weight "CarbonImpact" = 20/100 from rfl,
      show weight "EmissionsTrend" = 10/100 from rfl,
      show weight "SocialScore" = 5/100 from rfl,
      show weight "GovernanceScore" = 5/100 from rfl]
  constructor
  · have := hd.1
    have := hi.1
    have := hc.1
    have := he.1
    have := hs.1
    have := hg.1
    positivity
  · nlinarith [hd.2, hi.2, hc.2, he.2, hs.2, hg.2, hd.1, hi.1, hc.1, he.1, hs.1, hg.1]

/-- The six normalized driver columns added by `calculate_risk`. -/
def NORM_COLS : List String :=
  ["DebtNorm", "InterestNorm", "CarbonNorm", "EmTrendNorm", "SocialNorm", "GovNorm"]

/-- C3: on a non-degenerate batch satisfying the domain preconditions, every
normalized driver lies in [0,1], the six configured weights sum to 1, and
every RiskScore lies in [0,1]. -/
theorem calculate_risk_ranges (df df' : DataFrame)
    (hok : calculate_risk df = Except.ok df')
    (hde0 : ∀ c ∈ getCol df "Debt/Equity", Cell.numGe 0 c = true)
    (hde1 : ∃ c ∈ getCol df "Debt/Equity", Cell.numGt 0 c = true)
    (hic : ∀ c ∈ getCol df "InterestCoverage", Cell.numGt 0 c = true)
    (hci0 : ∀ c ∈ getCol df "CarbonImpact", Cell.numGe 0 c = true)
    (hci1 : ∃ c ∈ getCol df "CarbonImpact", Cell.numGt 0 c = true)
    (hem : ∀ c ∈ getCol df "EmissionsTrend", Cell.numIn (-50) 50 c = true)
    (hso : ∀ c ∈ getCol df "SocialScore", Cell.numIn 0 100 c = true)
    (hgo : ∀ c ∈ getCol df "GovernanceScore", Cell.numIn 0 100 c = true) :
    (∀ C ∈ NORM_COLS, ∀ c ∈ getCol df' C, Cell.numIn 0 1 c = true)
    ∧ (RISK_WEIGHTS.map (fun w => w.2)).sum = 1
    ∧ (∀ c ∈ getCol df' "RiskScore", Cell.numIn 0 1 c = true) := by
  have hdf : df' = riskBody df := calculate_risk_ok df df' hok
  subst hdf
  have hDebt : ∀ c ∈ normByMax (getCol df "Debt/Equity"), Cell.numIn 0 1 c = true :=
    normByMax_range _ hde0 hde1
  have hInt : ∀ c ∈ normByMax ((getCol df "InterestCoverage").map Cell.inv),
      Cell.numIn 0 1 c = true :=
    normByMax_range_pos _ (map_inv_pos _ hic)
  have hCar : ∀ c ∈ normByMax (getCol df "CarbonImpact"), Cell.numIn 0 1 c = true :=
    normByMax_range _ hci0 hci1
  have hEm := emTrendNorm_range _ hem
  have hSo := scoreNorm_range _ hso
  have hGo := scoreNorm_range _ hgo
  refine ⟨?_, ?_, ?_⟩
  · intro C hC
    have hC6 : C = "DebtNorm" ∨ C = "InterestNorm" ∨ C = "CarbonNorm"
        ∨ C = "EmTrendNorm" ∨ C = "SocialNorm" ∨ C = "GovNorm" := by
      simpa [NORM_COLS] using hC
    rcases hC6 with rfl | rfl | rfl | rfl | rfl | rfl
    · rw [riskBody_debtNorm]; exact hDebt
    · rw [riskBody_interestNorm]; exact hInt
    · rw [riskBody_carbonNorm]; exact hCar
    · rw [riskBody_emTrendNorm]; exact hEm
    · rw [riskBody_socialNorm]; exact hSo
    · rw [riskBody_govNorm]; exact hGo
  · norm_num [RISK_WEIGHTS]
  · rw [riskBody_riskScore]
    intro x hx
    obtain ⟨a, ha, b, hb, c, hc, d, hd, e, he, g, hg, rfl⟩ :=
      mem_zipWith6 _ _ _ _ _ _ _ _ hx
    exact riskScoreCell_range a b c d e g (hDebt a ha) (hInt b hb) (hCar c hc)
      (hEm d hd) (hSo e he) (hGo g hg)

/-- Concrete two-row batch satisfying the C3 preconditions. -/
def wdfRanges : DataFrame :=
  [("Debt/Equity", [Cell.num 0, Cell.num 3]),
   ("InterestCoverage", [Cell.num 4, Cell.num 2]),
   ("CarbonImpact", [Cell.num 0, Cell.num 250]),
   ("EmissionsTrend", [Cell.num 50, Cell.num (-50)]),
   ("SocialScore", [Cell.num 0, Cell.num 100]),
   ("GovernanceScore", [Cell.num 30, Cell.num 70])]

theorem calculate_risk_ranges_witness :
    (∀ C ∈ NORM_COLS, ∀ c ∈ getCol (okDF (calculate_risk wdfRanges)) C,
        Cell.numIn 0 1 c = true)
    ∧ (RISK_WEIGHTS.map (fun w => w.2)).sum = 1
    ∧ (∀ c ∈ getCol (okDF (calculate_risk wdfRanges)) "RiskScore",
        Cell.numIn 0 1 c = true) :=
  calculate_risk_ranges wdfRanges (okDF (calculate_risk wdfRanges)) rfl
    (by decide) (by decide) (by decide) (by decide) (by decide) (by decide)
    (by decide) (by decide)

/-- Concrete input for the C5 mutation bug: the six required columns, no
derived columns. -/
def wdfMut : DataFrame :=
  [("Debt/Equity", [Cell.num 1]),
   ("InterestCoverage", [Cell.num 2]),
   ("CarbonImpact", [Cell.num 3]),
   ("EmissionsTrend", [Cell.num 0]),
   ("SocialScore", [Cell.num 50]),
   ("GovernanceScore", [Cell.num 50])]

/-- C5 (code bug): `calculate_risk` has no `df.copy()`, so its column
assignments write into the caller's object.  At this concrete input the call
succeeds and returns the caller's own reference, and afterwards the caller's
dataframe holds a RiskScore column it did not have before the call — the
caller's dataset is not left unchanged. -/
theorem calculate_risk_mutates_caller :
    (calculate_risk_heap [wdfMut] 0).1 = Except.ok 0
    ∧ hasCol wdfMut "RiskScore" = false
    ∧ hasCol (heapGet (calculate_risk_heap [wdfMut] 0).2 0) "RiskScore" = true :=
  ⟨rfl, rfl, rfl⟩

/-- `zipWith` indexing. -/
theorem zipWith_getElem? (f : Cell → Cell → Cell) (as bs : List Cell) (i : Nat)
    (a b : Cell) (ha : as[i]? = some a) (hb : bs[i]? = some b) :
    (List.zipWith f as bs)[i]? = some (f a b) := by
  induction as generalizing bs i with
  | nil => simp at ha
  | cons x xs ih =>
      cases bs with
      | nil => simp at hb
      | cons y ys =>
          cases i with
          | zero =>
              simp only [List.getElem?_cons_zero, Option.some.injEq] at ha hb
              subst ha; subst hb
              simp [List.zipWith_cons_cons]
          | succ i =>
              simp only [List.getElem?_cons_succ] at ha hb
              simpa using ih ys i ha hb

/-- Project the series out of a successful `estimate_capital` call. -/
def okCells (r : Except EBAError (List Cell)) : List Cell :=
  match r with
  | Except.ok l => l
  | Except.error _ => []

/-- Whether an `estimate_capital` call succeeded. -/
def isOkCells (r : Except EBAError (List Cell)) : Bool :=
  match r with
  | Except.ok _ => true
  | Except.error _ => false

/-- C8: `estimate_capital` errors exactly when TotalAssets is absent;
otherwise each row yields RiskScore × TotalAssets × 0.5, and for fixed
TotalAssets > 0 a strictly larger RiskScore yields strictly more capital. -/
theorem estimate_capital_spec :
    (∀ df : DataFrame, hasCol df "TotalAssets" = false →
        estimate_capital df = Except.error EBAError.missingTotalAssets)
    ∧ (∀ df : DataFrame, hasCol df "TotalAssets" = true →
        isOkCells (estimate_capital df) = true)
    ∧ (∀ (df : DataFrame) (i : Nat) (r t : ℚ),
        hasCol df "TotalAssets" = true →
        (getCol df "RiskScore")[i]? = some (Cell.num r) →
        (getCol df "TotalAssets")[i]? = some (Cell.num t) →
        (okCells (estimate_capital df))[i]? = some (Cell.num (r * t * (1/2))))
    ∧ (∀ r1 r2 t : ℚ, 0 < t → r1 < r2 →
        ∃ q1 q2 : ℚ, capCell (Cell.num r1) (Cell.num t) = Cell.num q1
          ∧ capCell (Cell.num r2) (Cell.num t) = Cell.num q2 ∧ q1 < q2) := by
  refine ⟨?_, ?_, ?_, ?_⟩
  · intro df h
    unfold estimate_capital
    simp [h]
  · intro df h
    unfold estimate_capital
    simp [h, isOkCells]
  · intro df i r t h hr ht
    unfold estimate_capital
    simp only [h, if_true]
    show (List.zipWith capCell (getCol df "RiskScore") (getCol df "TotalAssets"))[i]?
      = some (Cell.num (r * t * (1/2)))
    rw [zipWith_getElem? capCell _ _ i (Cell.num r) (Cell.num t) hr ht]
    rfl
  · intro r1 r2 t ht hr
    refine ⟨r1 * t * (1/2), r2 * t * (1/2), rfl, rfl, ?_⟩
    nlinarith [mul_pos (sub_pos.2 hr) ht]

/-- Concrete inputs for the C8 witness. -/
def wdfNoAssets : DataFrame := [("RiskScore", [Cell.num 1])]

/-- Concrete scored dataframe with TotalAssets for the C8 witness. -/
def wdfCap : DataFrame :=
  [("RiskScore", [Cell.num (1/2)]),
   ("TotalAssets", [Cell.num 100])]

theorem estimate_capital_spec_witness :
    estimate_capital wdfNoAssets = Except.error EBAError.missingTotalAssets
    ∧ isOkCells (estimate_capital wdfCap) = true
    ∧ (okCells (estimate_capital wdfCap))[0]? = some (Cell.num ((1/2) * 100 * (1/2)))
    ∧ (∃ q1 q2 : ℚ, capCell (Cell.num 0) (Cell.num 100) = Cell.num q1
        ∧ capCell (Cell.num 1) (Cell.num 100) = Cell.num q2 ∧ q1 < q2) :=
  ⟨estimate_capital_spec.1 wdfNoAssets rfl,
   estimate_capital_spec.2.1 wdfCap rfl,
   estimate_capital_spec.2.2.1 wdfCap 0 (1/2) 100 rfl rfl rfl,
   estimate_capital_spec.2.2.2 0 1 100 (by norm_num) (by norm_num)⟩

/-- Concrete input for C9: the first row has InterestCoverage 0. -/
def wdfZeroIC : DataFrame :=
  [("Debt/Equity", [Cell.num 1, Cell.num 2]),
   ("InterestCoverage", [Cell.num 0, Cell.num 2]),
   ("CarbonImpact", [Cell.num 3, Cell.num 4]),
   ("EmissionsTrend", [Cell.num 0, Cell.num 0]),
   ("SocialScore", [Cell.num 50, Cell.num 50]),
   ("GovernanceScore", [Cell.num 50, Cell.num 50])]

/-- C9 (code bug): with an InterestCoverage of 0 in the batch, the
normalization on model.py line 34 under IEEE float semantics yields
`1/0 = inf`, then `inf/inf = NaN` for that row (and finite/inf = 0 for the
others), with no exception; and `calculate_risk`'s validation accepts the
batch — nothing rejects the zero or assigns a sentinel, the NaN is produced
silently. -/
theorem interest_zero_silent_nan :
    interestNormF [EFloat.fin 0, EFloat.fin 2] = [EFloat.nan, EFloat.fin 0]
    ∧ isOk (calculate_risk wdfZeroIC) = true :=
  ⟨rfl, rfl⟩

/-- C10: `check_data` returns invalid only for missing required columns.
With all required columns present it returns True, while null values and
out-of-range ESG findings are only appended to the report. -/
theorem check_data_valid_despite_findings (df : DataFrame)
    (hcols : ∀ c ∈ MUST_HAVE_COLUMNS, hasCol df c = true) :
    (check_data df).1 = true
    ∧ ((colAnyLt (getCol df "EmissionsTrend") (-50)
          || colAnyGt (getCol df "EmissionsTrend") 50) = true →
        "EmissionsTrend out of range (-50 to 50)" ∈ (check_data df).2)
    ∧ ((colAnyLt (getCol df "SocialScore") 0
          || colAnyGt (getCol df "SocialScore") 100) = true →
        "SocialScore out of range (0-100)" ∈ (check_data df).2)
    ∧ ((colAnyLt (getCol df "GovernanceScore") 0
          || colAnyGt (getCol df "GovernanceScore") 100) = true →
        "GovernanceScore out of range (0-100)" ∈ (check_data df).2)
    ∧ (∀ col ∈ df, colHasNull col.2 = true →
        ∃ s, ("Empty values in: " ++ s) ∈ (check_data df).2) := by
  have hmiss : MUST_HAVE_COLUMNS.filter (fun c => !(hasCol df c)) = [] := by
    apply List.filter_eq_nil_iff.2
    intro a ha
    simp [hcols a ha]
  unfold check_data
  rw [hmiss]
  simp only [List.isEmpty_nil, Bool.not_true, Bool.false_eq_true, if_false]
  refine ⟨by trivial, ?_, ?_, ?_, ?_⟩
  · intro hfire
    simp only [hfire, if_true]
    simp [List.mem_append]
  · intro hfire
    simp only [hfire, if_true]
    simp [List.mem_append]
  · intro hfire
    simp only [hfire, if_true]
    simp [List.mem_append]
  · intro col hcol hnull
    refine ⟨String.intercalate ", "
      ((df.filter (fun c => colHasNull c.2)).map (fun c => c.1)), ?_⟩
    have hne : ((df.filter (fun c => colHasNull c.2)).map (fun c => c.1)).isEmpty
        = false := by
      have : col.1 ∈ (df.filter (fun c => colHasNull c.2)).map (fun c => c.1) :=
        List.mem_map.2 ⟨col, List.mem_filter.2 ⟨hcol, hnull⟩, rfl⟩
      cases hx : (df.filter (fun c => colHasNull c.2)).map (fun c => c.1) with
      | nil => rw [hx] at this; simp at this
      | cons a l => rfl
    simp only [hne, Bool.not_false, if_true]
    simp [List.mem_append]

/-- Concrete input for the C10 witness: all required columns present, with a
null value and out-of-range ESG fields. -/
def wdfCheck : DataFrame :=
  [("Ticker", [Cell.str "A", Cell.str "B"]),
   ("Debt/Equity", [Cell.num 1, Cell.null]),
   ("InterestCoverage", [Cell.num 4, Cell.num 2]),
   ("CarbonImpact", [Cell.num 600, Cell.num 100]),
   ("EmissionsTrend", [Cell.num 60, Cell.num 0]),
   ("SocialScore", [Cell.num (-5), Cell.num 50]),
   ("GovernanceScore", [Cell.num 50, Cell.num 120]),
   ("TotalAssets", [Cell.num 1000, Cell.num 2000])]

theorem check_data_valid_despite_findings_witness :
    (check_data wdfCheck).1 = true
    ∧ ((colAnyLt (getCol wdfCheck "EmissionsTrend") (-50)
          || colAnyGt (getCol wdfCheck "EmissionsTrend") 50) = true →
        "EmissionsTrend out of range (-50 to 50)" ∈ (check_data wdfCheck).2)
    ∧ ((colAnyLt (getCol wdfCheck "SocialScore") 0
          || colAnyGt (getCol wdfCheck "SocialScore") 100) = true →
        "SocialScore out of range (0-100)" ∈ (check_data wdfCheck).2)
    ∧ ((colAnyLt (getCol wdfCheck "GovernanceScore") 0
          || colAnyGt (getCol wdfCheck "GovernanceScore") 100) = true →
        "GovernanceScore out of range (0-100)" ∈ (check_data wdfCheck).2)
    ∧ (∀ col ∈ wdfCheck, colHasNull col.2 = true →
        ∃ s, ("Empty values in: " ++ s) ∈ (check_data wdfCheck).2) :=
  check_data_valid_despite_findings wdfCheck (by decide)
